import Mathlib

/- Verification development for the covid-cases-prediction program (src/main.py).
   The program is shallowly embedded: Python datetimes are modeled as whole-day
   numbers (timestamps at UTC, so a date `d` has timestamp `d * 86400`), numpy
   integer arrays as `List ℤ`, and floating-point results as `ℚ`.  Fallible
   Python operations return `Except PyErr`. -/

/-- Python exceptions that the modeled code can raise. -/
inductive PyErr where
  | keyError (key : String)
  | indexError
  | typeError
  deriving Repr, DecidableEq

/-- Python `str.upper()` character-wise, as used for district and county keys;
the names occurring in the data are ASCII, for which `Char.toUpper` agrees with
Python's `upper`. -/
def pyUpper (s : String) : String := ⟨s.data.map Char.toUpper⟩

/-- Consecutive differences, as `np.diff` over the datetime array in main.py
line 145 followed by `.days`; with dates modeled as whole-day numbers the
`.days` field is the exact integer difference. -/
def diffs : List ℤ → List ℤ
  | a :: b :: rest => (b - a) :: diffs (b :: rest)
  | _ => []

/-- Running partial sums, as `np.ndarray.cumsum`: `cumsum [a, b, c] = [a, a+b, a+b+c]`. -/
def cumsum : List ℤ → List ℤ
  | [] => []
  | a :: rest => a :: (cumsum rest).map (a + ·)

/-- Day-offset x axis of main.py line 144-145:
`np.array([0] + [d.days for d in np.diff(np.array(dates))]).cumsum()`. -/
def xAxis (dates : List ℤ) : List ℤ := cumsum (0 :: diffs dates)

/-- Arithmetic mean of an integer array as a rational, as `np.ndarray.mean`
used for the axvline position in main.py lines 162 and 165. -/
def listMean (l : List ℤ) : ℚ := ((l.sum : ℤ) : ℚ) / (l.length : ℚ)

/-- Day number of a proleptic Gregorian date (days since 0000-03-01, the
standard days-from-civil algorithm); models a Python `datetime` at whole-day
granularity so that date subtraction yields exact `.days` differences. -/
def toDays (year month day : ℕ) : ℤ :=
  let y := if month ≤ 2 then year - 1 else year
  let era := y / 400
  let yoe := y % 400
  let mp := (month + 9) % 12
  let doy := (153 * mp + 2) / 5 + day - 1
  let doe := yoe * 365 + yoe / 4 - yoe / 100 + doy
  ((era * 146097 + doe : ℕ) : ℤ)

/-- Number of elements of Python `range(start, stop, step)` for a positive step
(`max 0 (ceil ((stop - start) / step))`). -/
def pyRangeLen (start stop step : ℤ) : ℕ :=
  if 0 < step then ((stop - start).toNat + (step.toNat - 1)) / step.toNat else 0

/-- Python `range(start, stop, step)` for a positive step. -/
def pyRange (start stop step : ℤ) : List ℤ :=
  (List.range (pyRangeLen start stop step)).map (fun (i : ℕ) => start + (i : ℤ) * step)

/-- Seconds in the nominal 30-day month of main.py line 132:
`month_diff = 1 * 30 * 24 * 60 * 60`. -/
def monthDiff : ℤ := 1 * 30 * 24 * 60 * 60

/-- Future prediction timestamps of main.py lines 133-140:
`range(int(last_date_ts) + month_diff, int(last_date_ts) + (predictions+1) * month_diff, month_diff)`;
with midnight dates at UTC, `int(dates[-1].timestamp())` is `lastD * 86400`. -/
def futureTs (lastD : ℤ) (predictions : ℕ) : List ℤ :=
  pyRange (lastD * 86400 + monthDiff) (lastD * 86400 + ((predictions : ℤ) + 1) * monthDiff)
    monthDiff

/-- Dot product of two rational vectors. -/
def dot (a b : List ℚ) : ℚ := ((a.zip b).map (fun p => p.1 * p.2)).sum

/-- Vandermonde row `[t^deg, ..., t, 1]`; `np.polyfit` returns coefficients
highest degree first. -/
def polyRow (t : ℤ) (deg : ℕ) : List ℚ :=
  (List.range (deg + 1)).map (fun j => (t : ℚ) ^ (deg - j))

/-- One elimination step of Gaussian elimination: subtract the pivot-row
multiple from a row and drop the leading column. -/
def elimWith (p r : List ℚ) : List ℚ :=
  (r.tail.zip p.tail).map (fun q => q.1 - r.headD 0 / p.headD 0 * q.2)

/-- Find the first row with a nonzero leading coefficient. -/
def pivotSplit : List (List ℚ) → Option (List ℚ × List (List ℚ))
  | [] => none
  | r :: rs =>
    if r.headD 0 ≠ 0 then some (r, rs)
    else
      match pivotSplit rs with
      | some (p, rest) => some (p, r :: rest)
      | none => none

/-- Gaussian elimination with back substitution on an augmented linear system
with `n` unknowns; a rank-deficient column contributes a zero solution entry. -/
def gaussSolve : (n : ℕ) → List (List ℚ) → List ℚ
  | 0, _ => []
  | n + 1, rows =>
    match pivotSplit rows with
    | none => 0 :: gaussSolve n (rows.map List.tail)
    | some (p, rest) =>
      let xs := gaussSolve n (rest.map (elimWith p))
      (p.tail.getLastD 0 - dot p.tail.dropLast xs) / p.headD 0 :: xs

/-- Least-squares polynomial fit via the normal equations of the Vandermonde
system; models the value computed by `np.polyfit` (coefficients highest degree
first).  No theorem in this development depends on the numeric coefficient
values, only on which `(x, y)` pairs are fed to the solver. -/
def polyfitLS (x y : List ℤ) (deg : ℕ) : List ℚ :=
  let A := x.map (fun t => polyRow t deg)
  let col := fun i => A.map (fun r => r.getD i 0)
  let yq := y.map (fun v => (v : ℚ))
  let aug := (List.range (deg + 1)).map
    (fun i => (List.range (deg + 1)).map (fun j => dot (col i) (col j)) ++ [dot (col i) yq])
  gaussSolve (deg + 1) aug

/-- Model of `np.polyfit(x, y, deg)` as called in main.py lines 155 and 157:
numpy raises `TypeError` for an empty x vector or for mismatched x/y lengths,
and otherwise returns least-squares coefficients (for fewer points than
`deg + 1` it merely emits a RankWarning and still returns a solution). -/
def npPolyfit (x y : List ℤ) (deg : ℕ) : Except PyErr (List ℚ) :=
  if x.length = 0 then .error .typeError
  else if x.length ≠ y.length then .error .typeError
  else .ok (polyfitLS x y deg)

/-- Polynomial evaluation with coefficients highest degree first, as the
`np.poly1d` object `p` of main.py line 158. -/
def polyval (z : List ℚ) (t : ℚ) : ℚ := z.foldl (fun acc c => acc * t + c) 0

/-- The per-district store `self.data` produced by `getInfo` as consumed by
`plotData`: an ordered mapping from county name to its date-indexed series.
Values are the integer case counts (main.py line 151 casts `y` with
`astype(int)`). -/
abbrev Store := List (String × List (ℤ × ℤ))

/-- Python dict lookup `self.data[k]`, raising `KeyError k` when absent. -/
def lookupStore (store : Store) (k : String) : Except PyErr (List (ℤ × ℤ)) :=
  match store.find? (fun p => p.1 == k) with
  | some p => .ok p.2
  | none => .error (.keyError k)

/-- Numeric artifacts of one `plotData` run: the full day-offset axis `x`
(observed then synthetic future positions), the observed values, the two
arrays passed to `np.polyfit` (`fitX`, `fitY`), the fitted coefficients, the
predicted values `p(x[-predictions:])` of main.py line 179, the position of
the red dashed observed/predicted divider (`plt.axvline`, main.py lines
160-165, `none` when no divider is drawn), and the generated future dates. -/
structure ForecastResult where
  x : List ℤ
  yObserved : List ℤ
  fitX : List ℤ
  fitY : List ℤ
  coefficients : List ℚ
  yForecast : List ℚ
  divider : Option ℚ
  futureDates : List ℤ
  deriving Repr

/-- Continuation of `plotData` after the date and series lookups (main.py
lines 144-179): builds the x axis, slices off the synthetic tail for the fit
(`x[:-predictions]` when `predictions > 0`), runs `np.polyfit`, and records
the divider position and the predicted values. -/
def buildResult (entry yEntry : List (ℤ × ℤ)) (degree predictions : ℕ) (fds : List ℤ) :
    Except PyErr ForecastResult :=
  let dates := entry.map Prod.fst ++ fds
  let x := xAxis dates
  let y := yEntry.map Prod.snd
  let fitX := if 0 < predictions then x.take (x.length - predictions) else x
  (npPolyfit fitX y degree).map (fun z =>
    ⟨x, y, fitX, y, z,
      if 0 < predictions then (x.drop (x.length - predictions)).map (fun t => polyval z (t : ℚ))
      else [],
      if 1 < predictions then some (listMean ((x.drop (x.length - (predictions + 1))).take 2))
      else if predictions = 1 then some (listMean (x.drop (x.length - 2)))
      else none,
      fds⟩)

/-- Synthetic future date generation of main.py lines 130-141: for
`predictions > 0` take `dates[-1]` (raising `IndexError` on an empty series),
step its timestamp in 30-day increments and convert the timestamps back to
dates with `datetime.fromtimestamp`. -/
def futureDatesExc (obsDates : List ℤ) (predictions : ℕ) : Except PyErr (List ℤ) :=
  if 0 < predictions then
    match obsDates.getLast? with
    | none => .error .indexError
    | some lastD => .ok ((futureTs lastD predictions).map (fun ts => ts / 86400))
  else .ok []

/-- Model of `App.plotData` (main.py lines 110-202).  The dates are read from
`self.data[county.upper()]` (lines 127-128) while the values are read from
`self.data[county]` (line 148); with `predictions > 0` the synthetic future
dates are appended first (lines 131-141).  Pure plotting calls (figure, plot,
ticks, legend, show) carry no data and are not part of the result. -/
def plotData (store : Store) (county : String) (degree predictions : ℕ) :
    Except PyErr ForecastResult :=
  (lookupStore store (pyUpper county)).bind (fun entry =>
    (futureDatesExc (entry.map Prod.fst) predictions).bind (fun fds =>
      (lookupStore store county).bind (fun yEntry =>
        buildResult entry yEntry degree predictions fds)))

/-- Modelled from the spec: `split_index = n` for a positive horizon and
`n - 1` for a zero horizon (spec section 4.2, Split semantics).  The source has
no explicit split variable; it encodes the boundary only through the red
dashed `axvline` drawn between the last observed and the first predicted x
position (main.py lines 160-165), captured by `ForecastResult.divider`. -/
def splitIndexSpec (n horizon : ℕ) : ℤ := if 0 < horizon then (n : ℤ) else (n : ℤ) - 1

/-- Raw API record row with the dataframe columns used by `getInfo`
(`data`, `distrito`, `concelho`, `confirmados_1`); dates are whole-day
numbers and case counts integers. -/
structure RawRecord where
  data : ℤ
  distrito : String
  concelho : String
  confirmados_1 : ℤ
  deriving Repr, DecidableEq

/-- Ascending insert keeping one copy of each key; building block of the
sorted, deduplicated group keys produced by `pivot_table`. -/
def insStr (s : String) : List String → List String
  | [] => [s]
  | t :: ts =>
    if s = t then t :: ts
    else if s < t then s :: t :: ts
    else t :: insStr s ts

/-- Sorted deduplicated string keys, as the `county` columns of the pivot table. -/
def dedupSortStr (l : List String) : List String := l.foldl (fun acc s => insStr s acc) []

/-- Ascending insert keeping one copy of each integer key. -/
def insInt (s : ℤ) : List ℤ → List ℤ
  | [] => [s]
  | t :: ts =>
    if s = t then t :: ts
    else if s < t then s :: t :: ts
    else t :: insInt s ts

/-- Sorted deduplicated integer keys, as the `date` index of the pivot table. -/
def dedupSortInt (l : List ℤ) : List ℤ := l.foldl (fun acc s => insInt s acc) []

/-- Record filter of main.py lines 78-82: keep rows whose `distrito` equals
`district.upper()` and whose date lies in the inclusive requested range (the
source compares the datetime column against the date strings, which pandas
coerces back to timestamps; modeled as day-number comparison). -/
def filterRecs (recs : List RawRecord) (district : String) (startD endD : ℤ) :
    List RawRecord :=
  (recs.filter (fun r => r.distrito == pyUpper district)).filter
    (fun r => decide (startD ≤ r.data) && decide (r.data ≤ endD))

/-- One cell of the pivot table of main.py lines 97-98:
`pivot_table(index=['date'], columns='county', values='daily_cases')` with the
pandas default aggregation `mean`; a county/date cell with no matching record
is NaN, modeled as `none`. -/
def pivotCell (f2 : List RawRecord) (c : String) (d : ℤ) : Option ℚ :=
  let cell := f2.filter (fun r => r.concelho == c && r.data == d)
  if cell.isEmpty then none
  else some ((cell.map (fun r => (r.confirmados_1 : ℚ))).sum / (cell.length : ℚ))

/-- Model of `App.getInfo` (main.py lines 43-108) after the HTTP fetch: an
empty payload gives `pd.DataFrame([])` with no columns, so line 74's
`df['data']` raises `KeyError('data')`; otherwise the rows are filtered by
district and date range and pivoted into `{county: {date: mean}}` with both
key axes sorted ascending, as `df.to_dict()` preserves.  Writing `data.json`
is a side output and is not modeled. -/
def getInfo (recs : List RawRecord) (district : String) (startD endD : ℤ) :
    Except PyErr (List (String × List (ℤ × Option ℚ))) :=
  if recs.isEmpty then .error (.keyError "data")
  else
    let f2 := filterRecs recs district startD endD
    let counties := dedupSortStr (f2.map (fun r => r.concelho))
    let dates := dedupSortInt (f2.map (fun r => r.data))
    .ok (counties.map (fun c => (c, dates.map (fun d => (d, pivotCell f2 c d)))))

/-- Closed form of the generated future dates, `lastD + 30 * k` for
`k = 1..p`; proved below to equal the timestamp computation `futureTs`
followed by `datetime.fromtimestamp`. -/
def thirtyDayDates (lastD : ℤ) (p : ℕ) : List ℤ :=
  (List.range p).map (fun (k : ℕ) => lastD + 30 * ((k : ℤ) + 1))

/- Concrete fixtures used to instantiate the theorems below. -/

def demoEntry : List (ℤ × ℤ) := [(0, 1), (2, 3), (9, 2)]

def demoStore : Store := [("BRAGA", demoEntry)]

def shortEntry : List (ℤ × ℤ) := [(0, 1), (1, 3), (2, 2)]

def shortStore : Store := [("BRAGA", shortEntry)]

def juneEntry : List (ℤ × ℤ) := [(toDays 2021 5 16, 5), (toDays 2021 6 15, 8)]

def juneStore : Store := [("BRAGA", juneEntry)]

def oneStore : Store := [("BRAGA", [(0, 1)])]

def dupRecs : List RawRecord := [⟨3, "BRAGA", "AMARES", 1⟩, ⟨3, "BRAGA", "AMARES", 3⟩]

def noMatchRecs : List RawRecord := [⟨5, "PORTO", "MAIA", 7⟩]

def fafeRecs : List RawRecord := [⟨4, "BRAGA", "FAFE", 6⟩]

/- Supporting lemmas about the x-axis encoding. -/

theorem cumsum_length (l : List ℤ) : (cumsum l).length = l.length := by
  induction l with
  | nil => simp [cumsum]
  | cons a t ih => simp [cumsum, ih]

theorem diffs_length (l : List ℤ) : (diffs l).length = l.length - 1 := by
  induction l with
  | nil => simp [diffs]
  | cons a t ih =>
    cases t with
    | nil => simp [diffs]
    | cons b u =>
      simp only [diffs, List.length_cons] at ih ⊢
      omega

theorem xAxis_length (l : List ℤ) (h : l ≠ []) : (xAxis l).length = l.length := by
  have hl : 0 < l.length := List.length_pos.mpr h
  simp only [xAxis, cumsum_length, List.length_cons, diffs_length]
  omega

theorem xAxis_cons_cons (a b : ℤ) (t : List ℤ) :
    xAxis (a :: b :: t) = 0 :: (xAxis (b :: t)).map (fun v => (b - a) + v) := by
  simp [xAxis, diffs, cumsum, List.map_map, Function.comp_def]

theorem xAxis_getElem? (ds : List ℤ) : ∀ i : ℕ, i < ds.length →
    (xAxis ds)[i]? = some (ds.getD i 0 - ds.getD 0 0) := by
  induction ds with
  | nil => intro i h; simp at h
  | cons a t ih =>
    intro i h
    cases t with
    | nil =>
      have hi : i = 0 := by simp at h; omega
      subst hi
      simp [xAxis, diffs, cumsum]
    | cons b u =>
      cases i with
      | zero =>
        rw [xAxis_cons_cons]
        simp
      | succ j =>
        have hj : j < (b :: u).length := by
          simp only [List.length_cons] at h ⊢
          omega
        rw [xAxis_cons_cons]
        simp only [List.getElem?_cons_succ, List.getElem?_map, ih j hj, Option.map_some',
          List.getD_cons_succ, List.getD_cons_zero]
        congr 1
        ring

theorem xAxis_take_append (ds es : List ℤ) (h : ds ≠ []) :
    (xAxis (ds ++ es)).take ds.length = xAxis ds := by
  have hds : 0 < ds.length := List.length_pos.mpr h
  have hne : ds ++ es ≠ [] := by simp [h]
  apply List.ext_getElem?
  intro i
  by_cases hi : i < ds.length
  · rw [List.getElem?_take_of_lt hi]
    rw [xAxis_getElem? _ i (by simp only [List.length_append]; omega),
      xAxis_getElem? _ i hi]
    have e1 : (ds ++ es).getD i 0 = ds.getD i 0 := by
      rw [List.getD_eq_getElem?_getD, List.getD_eq_getElem?_getD, List.getElem?_append,
        if_pos hi]
    have e0 : (ds ++ es).getD 0 0 = ds.getD 0 0 := by
      rw [List.getD_eq_getElem?_getD, List.getD_eq_getElem?_getD, List.getElem?_append,
        if_pos hds]
    rw [e1, e0]
  · have h1 : ((xAxis (ds ++ es)).take ds.length).length ≤ i := by
      rw [List.length_take]
      omega
    have h2 : (xAxis ds).length ≤ i := by
      rw [xAxis_length _ h]
      omega
    rw [List.getElem?_eq_none h1, List.getElem?_eq_none h2]

theorem xAxis_append_getElem? (ds es : List ℤ) (h : ds ≠ []) (k : ℕ) (hk : k < es.length) :
    (xAxis (ds ++ es))[ds.length + k]? = some (es.getD k 0 - ds.getD 0 0) := by
  have hds : 0 < ds.length := List.length_pos.mpr h
  rw [xAxis_getElem? _ _ (by simp only [List.length_append]; omega)]
  have e1 : (ds ++ es).getD (ds.length + k) 0 = es.getD k 0 := by
    rw [List.getD_eq_getElem?_getD, List.getD_eq_getElem?_getD, List.getElem?_append,
      if_neg (by omega)]
    have e2 : ds.length + k - ds.length = k := by omega
    rw [e2]
  have e0 : (ds ++ es).getD 0 0 = ds.getD 0 0 := by
    rw [List.getD_eq_getElem?_getD, List.getD_eq_getElem?_getD, List.getElem?_append,
      if_pos hds]
  rw [e1, e0]

theorem futureTs_div (lastD : ℤ) (p : ℕ) :
    (futureTs lastD p).map (fun ts => ts / 86400) = thirtyDayDates lastD p := by
  have hlen : pyRangeLen (lastD * 86400 + monthDiff)
      (lastD * 86400 + ((p : ℤ) + 1) * monthDiff) monthDiff = p := by
    unfold pyRangeLen monthDiff
    rw [if_pos (by norm_num)]
    have h1 : lastD * 86400 + ((p : ℤ) + 1) * (1 * 30 * 24 * 60 * 60) -
        (lastD * 86400 + 1 * 30 * 24 * 60 * 60) = ((p * 2592000 : ℕ) : ℤ) := by
      push_cast
      ring
    have h2 : ((1 * 30 * 24 * 60 * 60 : ℤ)).toNat = 2592000 := rfl
    rw [h1, Int.toNat_natCast, h2]
    rw [Nat.add_comm, Nat.add_mul_div_right _ _ (by norm_num : 0 < 2592000),
      Nat.div_eq_of_lt (by norm_num), Nat.zero_add]
  unfold futureTs pyRange thirtyDayDates
  rw [hlen, List.map_map]
  congr 1
  funext k
  simp only [Function.comp_apply]
  unfold monthDiff
  omega

theorem thirtyDayDates_length (lastD : ℤ) (p : ℕ) : (thirtyDayDates lastD p).length = p := by
  unfold thirtyDayDates
  rw [List.length_map, List.length_range]

theorem thirtyDayDates_getD (lastD : ℤ) (p k : ℕ) (hk : k < p) :
    (thirtyDayDates lastD p).getD k 0 = lastD + 30 * ((k : ℤ) + 1) := by
  rw [List.getD_eq_getElem?_getD]
  unfold thirtyDayDates
  rw [List.getElem?_map, List.getElem?_range hk]
  rfl

theorem listMean_pair (a b : ℤ) : listMean [a, b] = ((a + b : ℤ) : ℚ) / 2 := by
  unfold listMean
  simp

theorem drop_take_two (l : List ℤ) (k : ℕ) (h : k + 1 < l.length) :
    (l.drop k).take 2 = [l.getD k 0, l.getD (k + 1) 0] := by
  have h0 : k < l.length := by omega
  rw [List.drop_eq_getElem_cons h0, List.drop_eq_getElem_cons h,
    List.getD_eq_getElem?_getD, List.getD_eq_getElem?_getD,
    List.getElem?_eq_getElem h0, List.getElem?_eq_getElem h]
  rfl

theorem getLast?_of_ne_nil (l : List (ℤ × ℤ)) (h : l ≠ []) :
    ∃ a, (l.map Prod.fst).getLast? = some a := by
  have hm : l.map Prod.fst ≠ [] := by simpa using h
  cases hl : (l.map Prod.fst).getLast? with
  | none => exact absurd (List.getLast?_eq_none_iff.mp hl) hm
  | some a => exact ⟨a, rfl⟩

theorem npPolyfit_ok (x y : List ℤ) (deg : ℕ) (h0 : x.length ≠ 0) (hl : x.length = y.length) :
    npPolyfit x y deg = .ok (polyfitLS x y deg) := by
  unfold npPolyfit
  rw [if_neg h0, if_neg (by omega)]

theorem lookupStore_not_found (store : Store) (k : String)
    (h : ∀ q ∈ store, ¬ q.1 = k) :
    lookupStore store k = .error (.keyError k) := by
  have hf : store.find? (fun p => p.1 == k) = none := by
    apply List.find?_eq_none.mpr
    intro q hq
    simpa using h q hq
  unfold lookupStore
  rw [hf]

theorem buildResult_ok (entry yEntry : List (ℤ × ℤ)) (degree predictions : ℕ) (fds : List ℤ)
    (hne : entry ≠ []) (hlen : yEntry.length = entry.length) (hfds : fds.length = predictions) :
    buildResult entry yEntry degree predictions fds =
      .ok ⟨xAxis (entry.map Prod.fst ++ fds),
        yEntry.map Prod.snd,
        xAxis (entry.map Prod.fst),
        yEntry.map Prod.snd,
        polyfitLS (xAxis (entry.map Prod.fst)) (yEntry.map Prod.snd) degree,
        if 0 < predictions then
          ((xAxis (entry.map Prod.fst ++ fds)).drop
            ((xAxis (entry.map Prod.fst ++ fds)).length - predictions)).map
            (fun t => polyval
              (polyfitLS (xAxis (entry.map Prod.fst)) (yEntry.map Prod.snd) degree) (t : ℚ))
        else [],
        if 1 < predictions then
          some (listMean (((xAxis (entry.map Prod.fst ++ fds)).drop
            ((xAxis (entry.map Prod.fst ++ fds)).length - (predictions + 1))).take 2))
        else if predictions = 1 then
          some (listMean ((xAxis (entry.map Prod.fst ++ fds)).drop
            ((xAxis (entry.map Prod.fst ++ fds)).length - 2)))
        else none,
        fds⟩ := by
  have hobs : entry.map Prod.fst ≠ [] := by simpa using hne
  have hn : 0 < entry.length := List.length_pos.mpr hne
  have hdne : entry.map Prod.fst ++ fds ≠ [] := by simp [hobs]
  have hxlen : (xAxis (entry.map Prod.fst ++ fds)).length = entry.length + predictions := by
    rw [xAxis_length _ hdne, List.length_append, List.length_map, hfds]
  have hfitX : (if 0 < predictions then
      (xAxis (entry.map Prod.fst ++ fds)).take
        ((xAxis (entry.map Prod.fst ++ fds)).length - predictions)
      else xAxis (entry.map Prod.fst ++ fds)) = xAxis (entry.map Prod.fst) := by
    by_cases hp : 0 < predictions
    · rw [if_pos hp, hxlen, Nat.add_sub_cancel]
      have h3 : entry.length = (entry.map Prod.fst).length := (List.length_map _ _).symm
      rw [h3, xAxis_take_append _ _ hobs]
    · rw [if_neg hp]
      have hf0 : fds = [] := List.length_eq_zero.mp (by omega)
      rw [hf0, List.append_nil]
  have hpoly : npPolyfit (xAxis (entry.map Prod.fst)) (yEntry.map Prod.snd) degree =
      .ok (polyfitLS (xAxis (entry.map Prod.fst)) (yEntry.map Prod.snd) degree) := by
    apply npPolyfit_ok
    · rw [xAxis_length _ hobs, List.length_map]
      omega
    · rw [xAxis_length _ hobs, List.length_map, List.length_map, hlen]
  simp only [buildResult]
  rw [hfitX, hpoly]
  rfl

theorem divider_closed_form (entry : List (ℤ × ℤ)) (fds : List ℤ) (predictions : ℕ)
    (hne : entry ≠ []) (hfds : fds.length = predictions) :
    (if 1 < predictions then
      some (listMean (((xAxis (entry.map Prod.fst ++ fds)).drop
        ((xAxis (entry.map Prod.fst ++ fds)).length - (predictions + 1))).take 2))
    else if predictions = 1 then
      some (listMean ((xAxis (entry.map Prod.fst ++ fds)).drop
        ((xAxis (entry.map Prod.fst ++ fds)).length - 2)))
    else none) =
    (if 0 < predictions then
      some ((((xAxis (entry.map Prod.fst ++ fds)).getD (entry.length - 1) 0 +
        (xAxis (entry.map Prod.fst ++ fds)).getD entry.length 0 : ℤ) : ℚ) / 2)
    else none) := by
  have hobs : entry.map Prod.fst ≠ [] := by simpa using hne
  have hn : 0 < entry.length := List.length_pos.mpr hne
  have hdne : entry.map Prod.fst ++ fds ≠ [] := by simp [hobs]
  have hxlen : (xAxis (entry.map Prod.fst ++ fds)).length = entry.length + predictions := by
    rw [xAxis_length _ hdne, List.length_append, List.length_map, hfds]
  by_cases hp2 : 1 < predictions
  · rw [if_pos hp2, if_pos (by omega : 0 < predictions)]
    have hk : (xAxis (entry.map Prod.fst ++ fds)).length - (predictions + 1) + 1 <
        (xAxis (entry.map Prod.fst ++ fds)).length := by omega
    rw [drop_take_two _ _ hk, listMean_pair]
    have e2 : (xAxis (entry.map Prod.fst ++ fds)).length - (predictions + 1) + 1 =
        entry.length := by omega
    rw [e2]
    have e1 : (xAxis (entry.map Prod.fst ++ fds)).length - (predictions + 1) =
        entry.length - 1 := by omega
    rw [e1]
  · by_cases hp1 : predictions = 1
    · rw [if_neg hp2, if_pos hp1, if_pos (by omega : 0 < predictions)]
      have hdl : ((xAxis (entry.map Prod.fst ++ fds)).drop
          ((xAxis (entry.map Prod.fst ++ fds)).length - 2)).length = 2 := by
        rw [List.length_drop]
        omega
      have hdt : (xAxis (entry.map Prod.fst ++ fds)).drop
          ((xAxis (entry.map Prod.fst ++ fds)).length - 2) =
          ((xAxis (entry.map Prod.fst ++ fds)).drop
            ((xAxis (entry.map Prod.fst ++ fds)).length - 2)).take 2 := by
        nth_rewrite 2 [← hdl]
        rw [List.take_length]
      rw [hdt, drop_take_two _ _ (by omega :
        (xAxis (entry.map Prod.fst ++ fds)).length - 2 + 1 <
          (xAxis (entry.map Prod.fst ++ fds)).length), listMean_pair]
      have e2 : (xAxis (entry.map Prod.fst ++ fds)).length - 2 + 1 = entry.length := by
        omega
      rw [e2]
      have e1 : (xAxis (entry.map Prod.fst ++ fds)).length - 2 = entry.length - 1 := by
        omega
      rw [e1]
    · rw [if_neg hp2, if_neg hp1, if_neg (by omega : ¬ 0 < predictions)]

theorem plotData_ok (store : Store) (county : String) (degree predictions : ℕ)
    (entry yEntry : List (ℤ × ℤ)) (lastD : ℤ)
    (hup : lookupStore store (pyUpper county) = .ok entry)
    (hy : lookupStore store county = .ok yEntry)
    (hlast : (entry.map Prod.fst).getLast? = some lastD) :
    plotData store county degree predictions =
      buildResult entry yEntry degree predictions (thirtyDayDates lastD predictions) := by
  by_cases hp : 0 < predictions
  · simp only [plotData, futureDatesExc, Except.bind, hup, hlast, hy, hp, if_true,
      futureTs_div]
  · have hp0 : predictions = 0 := by omega
    subst hp0
    simp only [plotData, futureDatesExc, Except.bind, hup, hy, Nat.lt_irrefl, if_false]
    rfl

theorem plotData_divider_degree_blind (store : Store) (county : String)
    (predictions d₁ d₂ : ℕ) :
    (plotData store county d₁ predictions).map ForecastResult.divider =
      (plotData store county d₂ predictions).map ForecastResult.divider := by
  simp only [plotData]
  cases hup : lookupStore store (pyUpper county) with
  | error e => rfl
  | ok entry =>
    simp only [Except.bind]
    cases hfds : futureDatesExc (entry.map Prod.fst) predictions with
    | error e => rfl
    | ok fds =>
      cases hyy : lookupStore store county with
      | error e => rfl
      | ok yEntry =>
        simp only [buildResult, npPolyfit]
        by_cases h0 : (if 0 < predictions then
            (xAxis (entry.map Prod.fst ++ fds)).take
              ((xAxis (entry.map Prod.fst ++ fds)).length - predictions)
            else xAxis (entry.map Prod.fst ++ fds)).length = 0
        · rw [if_pos h0, if_pos h0]
        · rw [if_neg h0, if_neg h0]
          by_cases h1 : (if 0 < predictions then
              (xAxis (entry.map Prod.fst ++ fds)).take
                ((xAxis (entry.map Prod.fst ++ fds)).length - predictions)
              else xAxis (entry.map Prod.fst ++ fds)).length ≠
                (yEntry.map Prod.snd).length
          · rw [if_pos h1, if_pos h1]
          · rw [if_neg h1, if_neg h1]
            rfl

/- Claim theorems. -/

/-- C2: for every non-empty sequence of observed dates the x-axis encoding
satisfies `x 0 = 0` and `x i = x (i-1) + (d i - d (i-1))` for `1 ≤ i ≤ n-1`;
in particular for the dates 2021-01-01, 2021-01-03, 2021-01-10 the computed
x equals [0, 2, 9]. -/
theorem xaxis_cumulative_day_offsets (ds : List ℤ) (h : ds ≠ []) :
    (xAxis ds)[0]? = some 0 ∧
    (∀ i : ℕ, 1 ≤ i → i < ds.length →
      (xAxis ds)[i]? =
        some ((xAxis ds).getD (i - 1) 0 + (ds.getD i 0 - ds.getD (i - 1) 0))) ∧
    xAxis [toDays 2021 1 1, toDays 2021 1 3, toDays 2021 1 10] = [0, 2, 9] := by
  have hl : 0 < ds.length := List.length_pos.mpr h
  refine ⟨?_, ?_, by decide⟩
  · rw [xAxis_getElem? ds 0 hl]
    simp
  · intro i h1 h2
    rw [xAxis_getElem? ds i h2]
    have hprev : (xAxis ds).getD (i - 1) 0 = ds.getD (i - 1) 0 - ds.getD 0 0 := by
      rw [List.getD_eq_getElem?_getD, xAxis_getElem? ds (i - 1) (by omega)]
      rfl
    rw [hprev]
    congr 1
    ring

/-- Witness for `xaxis_cumulative_day_offsets` at the concrete day numbers
5, 7, 14 (the first conjunct instantiated). -/
theorem xaxis_cumulative_day_offsets_witness :
    (xAxis [5, 7, 14])[0]? = some 0 :=
  (xaxis_cumulative_day_offsets [5, 7, 14] (by decide)).1

/-- C9: `plotData` has no hidden inputs or side effects: two calls with the
same store, county, degree and horizon return the same value — in particular
identical coefficients, forecast values and divider position. -/
theorem forecast_deterministic (store : Store) (county : String)
    (degree predictions : ℕ) :
    plotData store county degree predictions = plotData store county degree predictions ∧
    (plotData store county degree predictions).map
        (fun r => (r.coefficients, r.yForecast, r.divider)) =
      (plotData store county degree predictions).map
        (fun r => (r.coefficients, r.yForecast, r.divider)) :=
  ⟨rfl, rfl⟩

/-- C4: whenever `plotData` succeeds on a stored (nonempty) series, the
returned x axis has length `len(series) + horizon`. -/
theorem xaxis_length_invariant (store : Store) (county : String)
    (degree predictions : ℕ) (entry yEntry : List (ℤ × ℤ))
    (hup : lookupStore store (pyUpper county) = .ok entry)
    (hy : lookupStore store county = .ok yEntry)
    (hne : entry ≠ [])
    (hlen : yEntry.length = entry.length) :
    (plotData store county degree predictions).map (fun r => r.x.length) =
      (plotData store county degree predictions).map
        (fun _ => entry.length + predictions) := by
  obtain ⟨lastD, hlast⟩ := getLast?_of_ne_nil entry hne
  rw [plotData_ok store county degree predictions entry yEntry lastD hup hy hlast,
    buildResult_ok entry yEntry degree predictions _ hne hlen
      (thirtyDayDates_length lastD predictions)]
  simp only [Except.map]
  congr 1
  have hobs : entry.map Prod.fst ≠ [] := by simpa using hne
  have hdne : entry.map Prod.fst ++ thirtyDayDates lastD predictions ≠ [] := by
    simp [hobs]
  rw [xAxis_length _ hdne, List.length_append, List.length_map, thirtyDayDates_length]

/-- Witness for `xaxis_length_invariant` on the three-point demo store with
horizon 2. -/
theorem xaxis_length_invariant_witness :
    (plotData demoStore "BRAGA" 2 2).map (fun r => r.x.length) =
      (plotData demoStore "BRAGA" 2 2).map (fun _ => demoEntry.length + 2) :=
  xaxis_length_invariant demoStore "BRAGA" 2 2 demoEntry demoEntry rfl rfl
    (by decide) rfl

/-- C1: the polynomial fit only ever sees the observed points: for every
degree and horizon, the arrays handed to `np.polyfit` are exactly the x axis
computed from the observed dates alone together with the observed values,
while the returned x axis is computed over the observed dates plus the
synthetic future dates (one extra position per prediction). -/
theorem fit_uses_observed_points_only (store : Store) (county : String)
    (degree predictions : ℕ) (entry yEntry : List (ℤ × ℤ))
    (hup : lookupStore store (pyUpper county) = .ok entry)
    (hy : lookupStore store county = .ok yEntry)
    (hne : entry ≠ [])
    (hlen : yEntry.length = entry.length) :
    ((plotData store county degree predictions).map (fun r => (r.fitX, r.fitY)) =
      (plotData store county degree predictions).map
        (fun _ => (xAxis (entry.map Prod.fst), yEntry.map Prod.snd))) ∧
    ((plotData store county degree predictions).map (fun r => r.x) =
      (plotData store county degree predictions).map
        (fun r => xAxis (entry.map Prod.fst ++ r.futureDates))) ∧
    ((plotData store county degree predictions).map (fun r => r.futureDates.length) =
      (plotData store county degree predictions).map (fun _ => predictions)) := by
  obtain ⟨lastD, hlast⟩ := getLast?_of_ne_nil entry hne
  rw [plotData_ok store county degree predictions entry yEntry lastD hup hy hlast,
    buildResult_ok entry yEntry degree predictions _ hne hlen
      (thirtyDayDates_length lastD predictions)]
  refine ⟨rfl, rfl, ?_⟩
  simp only [Except.map]
  congr 1
  exact thirtyDayDates_length lastD predictions

/-- Witness for `fit_uses_observed_points_only` on the demo store with the
source's default degree 6 and horizon 3. -/
theorem fit_uses_observed_points_only_witness :
    (plotData demoStore "BRAGA" 6 3).map (fun r => (r.fitX, r.fitY)) =
      (plotData demoStore "BRAGA" 6 3).map
        (fun _ => (xAxis (demoEntry.map Prod.fst), demoEntry.map Prod.snd)) :=
  (fit_uses_observed_points_only demoStore "BRAGA" 6 3 demoEntry demoEntry rfl rfl
    (by decide) rfl).1

/-- C3: with a positive horizon the generated future dates step in fixed
30-day increments from the last observed date (`future k = last + 30 * k` for
`k = 1..horizon`), the x axis continues the cumulative day count beyond
`x (n-1)` by the same 30-day steps, and for last observed date 2021-06-15
with horizon 2 the future dates are 2021-07-15 and 2021-08-14. -/
theorem future_dates_thirty_day_steps (store : Store) (county : String)
    (degree predictions : ℕ) (entry yEntry : List (ℤ × ℤ)) (lastD : ℤ)
    (hup : lookupStore store (pyUpper county) = .ok entry)
    (hy : lookupStore store county = .ok yEntry)
    (hne : entry ≠ [])
    (hlast : (entry.map Prod.fst).getLast? = some lastD)
    (hlen : yEntry.length = entry.length) :
    ((plotData store county degree predictions).map (fun r => r.futureDates) =
      (plotData store county degree predictions).map
        (fun _ => thirtyDayDates lastD predictions)) ∧
    (∀ k : ℕ, k < predictions →
      (plotData store county degree predictions).map
          (fun r => (r.x[entry.length - 1]?, r.x[entry.length + k]?)) =
        (plotData store county degree predictions).map
          (fun _ => (some (lastD - (entry.map Prod.fst).getD 0 0),
            some (lastD - (entry.map Prod.fst).getD 0 0 + 30 * ((k : ℤ) + 1))))) ∧
    thirtyDayDates (toDays 2021 6 15) 2 = [toDays 2021 7 15, toDays 2021 8 14] := by
  rw [plotData_ok store county degree predictions entry yEntry lastD hup hy hlast,
    buildResult_ok entry yEntry degree predictions _ hne hlen
      (thirtyDayDates_length lastD predictions)]
  have hobs : entry.map Prod.fst ≠ [] := by simpa using hne
  have hobslen : (entry.map Prod.fst).length = entry.length := List.length_map _ _
  have hnlen : 0 < entry.length := List.length_pos.mpr hne
  refine ⟨rfl, ?_, by decide⟩
  intro k hk
  simp only [Except.map]
  congr 1
  simp only [Prod.mk.injEq]
  constructor
  · have hidx : entry.length - 1 <
        (entry.map Prod.fst ++ thirtyDayDates lastD predictions).length := by
      rw [List.length_append, hobslen, thirtyDayDates_length]
      omega
    rw [xAxis_getElem? _ (entry.length - 1) hidx]
    have hlastD : (entry.map Prod.fst).getD (entry.length - 1) 0 = lastD := by
      rw [List.getD_eq_getElem?_getD, ← hobslen, ← List.getLast?_eq_getElem?, hlast]
      rfl
    have ha : (entry.map Prod.fst ++ thirtyDayDates lastD predictions).getD
        (entry.length - 1) 0 = (entry.map Prod.fst).getD (entry.length - 1) 0 := by
      rw [List.getD_eq_getElem?_getD, List.getD_eq_getElem?_getD, List.getElem?_append,
        if_pos (by rw [hobslen]; omega)]
    have h0 : (entry.map Prod.fst ++ thirtyDayDates lastD predictions).getD 0 0 =
        (entry.map Prod.fst).getD 0 0 := by
      rw [List.getD_eq_getElem?_getD, List.getD_eq_getElem?_getD, List.getElem?_append,
        if_pos (by rw [hobslen]; omega)]
    rw [ha, h0, hlastD]
  · have hidx2 : entry.length + k = (entry.map Prod.fst).length + k := by rw [hobslen]
    rw [hidx2, xAxis_append_getElem? _ _ hobs k (by rw [thirtyDayDates_length]; exact hk),
      thirtyDayDates_getD lastD predictions k hk]
    congr 1
    ring

/-- Witness for `future_dates_thirty_day_steps` on a store whose last observed
date is 2021-06-15, with horizon 2. -/
theorem future_dates_thirty_day_steps_witness :
    (plotData juneStore "BRAGA" 1 2).map (fun r => r.futureDates) =
      (plotData juneStore "BRAGA" 1 2).map
        (fun _ => thirtyDayDates (toDays 2021 6 15) 2) :=
  (future_dates_thirty_day_steps juneStore "BRAGA" 1 2 juneEntry juneEntry
    (toDays 2021 6 15) rfl rfl (by decide) rfl rfl).1

/-- C5: the observed/forecast split.  With `horizon > 0` the split index of the
spec is `n`: exactly `n` points are fitted as observed and the red dashed
divider is drawn at the midpoint between `x (n-1)` and `x n`; with
`horizon = 0` the spec's index is `n - 1`, meaning no boundary: no divider is
drawn and nothing is forecast.  The divider is the same for every degree. -/
theorem split_index_semantics (store : Store) (county : String)
    (degree predictions : ℕ) (entry yEntry : List (ℤ × ℤ))
    (hup : lookupStore store (pyUpper county) = .ok entry)
    (hy : lookupStore store county = .ok yEntry)
    (hne : entry ≠ [])
    (hlen : yEntry.length = entry.length) :
    (0 < predictions →
      splitIndexSpec entry.length predictions = (entry.length : ℤ) ∧
      (plotData store county degree predictions).map (fun r => (r.fitX.length, r.divider)) =
        (plotData store county degree predictions).map
          (fun r => (entry.length,
            some (((r.x.getD (entry.length - 1) 0 + r.x.getD entry.length 0 : ℤ) : ℚ) / 2)))) ∧
    (predictions = 0 →
      splitIndexSpec entry.length predictions = (entry.length : ℤ) - 1 ∧
      (plotData store county degree predictions).map (fun r => (r.divider, r.yForecast)) =
        (plotData store county degree predictions).map (fun _ => (none, []))) ∧
    (∀ d₁ d₂ : ℕ,
      (plotData store county d₁ predictions).map ForecastResult.divider =
        (plotData store county d₂ predictions).map ForecastResult.divider) := by
  obtain ⟨lastD, hlast⟩ := getLast?_of_ne_nil entry hne
  have hbase := plotData_ok store county degree predictions entry yEntry lastD hup hy hlast
  refine ⟨?_, ?_, fun d₁ d₂ => plotData_divider_degree_blind store county predictions d₁ d₂⟩
  · intro hp
    constructor
    · unfold splitIndexSpec
      rw [if_pos hp]
    · rw [hbase, buildResult_ok entry yEntry degree predictions _ hne hlen
        (thirtyDayDates_length lastD predictions)]
      simp only [Except.map]
      congr 1
      simp only [Prod.mk.injEq]
      constructor
      · rw [xAxis_length _ (by simpa using hne : entry.map Prod.fst ≠ []), List.length_map]
      · rw [divider_closed_form entry _ predictions hne
          (thirtyDayDates_length lastD predictions), if_pos hp]
  · intro hp0
    subst hp0
    constructor
    · unfold splitIndexSpec
      rw [if_neg (by omega)]
    · rw [hbase, buildResult_ok entry yEntry degree 0 _ hne hlen
        (thirtyDayDates_length lastD 0)]
      rfl

/-- Witness for `split_index_semantics` on the demo store with degree 3 and
horizon 2 (the positive-horizon conjunct instantiated). -/
theorem split_index_semantics_witness :
    splitIndexSpec demoEntry.length 2 = (demoEntry.length : ℤ) ∧
    (plotData demoStore "BRAGA" 3 2).map (fun r => (r.fitX.length, r.divider)) =
      (plotData demoStore "BRAGA" 3 2).map
        (fun r => (demoEntry.length,
          some (((r.x.getD (demoEntry.length - 1) 0 +
            r.x.getD demoEntry.length 0 : ℤ) : ℚ) / 2))) :=
  (split_index_semantics demoStore "BRAGA" 3 2 demoEntry demoEntry rfl rfl
    (by decide) rfl).1 (by norm_num)

/-- C6 counterexample: forecasting a series of length 3 with degree 5 and
horizon 0 does not fail at all — `plotData` returns a result, refuting the
claim that it raises `InsufficientDataError` (no such check exists in the
source; `np.polyfit` merely warns on an under-determined system). -/
theorem insufficient_data_counterexample :
    (plotData shortStore "BRAGA" 5 0).isOk = true := rfl

/-- C6 amended: the source has no minimum-points check: for every degree —
including one with `degree + 1` larger than the number of observed points —
the fit is attempted on the observed slice and `plotData` returns a result
rather than an error. -/
theorem insufficient_data_no_error (store : Store) (county : String)
    (degree predictions : ℕ) (entry yEntry : List (ℤ × ℤ))
    (hup : lookupStore store (pyUpper county) = .ok entry)
    (hy : lookupStore store county = .ok yEntry)
    (hne : entry ≠ [])
    (hlen : yEntry.length = entry.length) :
    (plotData store county degree predictions).isOk = true := by
  obtain ⟨lastD, hlast⟩ := getLast?_of_ne_nil entry hne
  rw [plotData_ok store county degree predictions entry yEntry lastD hup hy hlast,
    buildResult_ok entry yEntry degree predictions _ hne hlen
      (thirtyDayDates_length lastD predictions)]
  rfl

/-- Witness for `insufficient_data_no_error`: three observed points, degree 7,
horizon 2 — the fit is under-determined yet a result is returned. -/
theorem insufficient_data_no_error_witness :
    (plotData shortStore "BRAGA" 7 2).isOk = true :=
  insufficient_data_no_error shortStore "BRAGA" 7 2 shortEntry shortEntry rfl rfl
    (by decide) rfl

/-- C10: the two store lookups of `plotData` normalize case inconsistently:
dates are read under `county.upper()` (main.py line 128) but values under the
name exactly as given (line 148), so on a store whose keys are upper-case any
non-upper-case county name fails with `KeyError county` even though the
upper-cased key is present. -/
theorem county_lookup_case_inconsistency (store : Store) (county : String)
    (degree predictions : ℕ) (entry : List (ℤ × ℤ))
    (hup : lookupStore store (pyUpper county) = .ok entry)
    (hne : entry ≠ [])
    (hkeys : ∀ q ∈ store, pyUpper q.1 = q.1)
    (hcase : pyUpper county ≠ county) :
    plotData store county degree predictions = .error (.keyError county) := by
  obtain ⟨lastD, hlast⟩ := getLast?_of_ne_nil entry hne
  have hyerr : lookupStore store county = .error (.keyError county) := by
    apply lookupStore_not_found
    intro q hq heq
    apply hcase
    calc pyUpper county = pyUpper q.1 := by rw [heq]
      _ = q.1 := hkeys q hq
      _ = county := heq
  by_cases hp : 0 < predictions
  · simp only [plotData, Except.bind, hup, futureDatesExc]
    rw [if_pos hp, hlast]
    simp only [Except.bind, hyerr]
  · simp only [plotData, Except.bind, hup, futureDatesExc]
    rw [if_neg hp]
    simp only [Except.bind, hyerr]

/-- Witness for `county_lookup_case_inconsistency`: the store holds only the
key BRAGA, and the call with the mixed-case name Braga fails with
`KeyError 'Braga'`. -/
theorem county_lookup_case_inconsistency_witness :
    plotData oneStore "Braga" 6 3 = .error (.keyError "Braga") :=
  county_lookup_case_inconsistency oneStore "Braga" 6 3 [(0, 1)] rfl (by decide)
    (by decide) (by decide)

/-- C8 counterexample: a nonempty record set with no record matching the
requested district succeeds with an empty store — no `EmptyResultError` (or
any error) is raised. -/
theorem empty_result_counterexample :
    getInfo noMatchRecs "Braga" 0 10 = .ok [] := rfl

/-- C8 amended: when no record matches the requested district and range but
the record sequence itself is nonempty, `getInfo` does not fail: it returns
an empty store; a fully empty record sequence fails, but with the
missing-column `KeyError 'data'` of `pd.DataFrame([])` (main.py line 74),
not with an emptiness error. -/
theorem empty_result_no_error (recs : List RawRecord) (district : String)
    (startD endD : ℤ)
    (hne : recs.isEmpty = false)
    (hnomatch : filterRecs recs district startD endD = []) :
    getInfo recs district startD endD = .ok [] ∧
    getInfo [] district startD endD = .error (.keyError "data") := by
  constructor
  · simp only [getInfo]
    rw [if_neg (by simp [hne]), hnomatch]
    rfl
  · rfl

/-- Witness for `empty_result_no_error`: one record whose district matches
but whose date lies outside the requested range. -/
theorem empty_result_no_error_witness :
    getInfo noMatchRecs "Porto" 20 10 = .ok [] ∧
    getInfo [] "Porto" 20 10 = .error (.keyError "data") :=
  empty_result_no_error noMatchRecs "Porto" 20 10 rfl (by decide)

/-- C7 counterexample: two raw records for the same (entity, date) pair —
values 1 and 3 for AMARES on day 3 — do not make the build fail: `getInfo`
succeeds and silently stores their mean 2. -/
theorem duplicate_observations_counterexample :
    getInfo dupRecs "Braga" 0 10 = .ok [("AMARES", [(3, some 2)])] := by
  have hcell : pivotCell (filterRecs dupRecs "Braga" 0 10) "AMARES" 3 = some 2 := by
    rw [(by decide : filterRecs dupRecs "Braga" 0 10 = dupRecs)]
    simp only [pivotCell, dupRecs]
    norm_num [List.filter]
  rw [show getInfo dupRecs "Braga" 0 10 =
      .ok [("AMARES", [(3, pivotCell (filterRecs dupRecs "Braga" 0 10) "AMARES" 3)])]
      from rfl, hcell]

/-- C7 amended: duplicate records for one (entity, date) pair are not an
error: the build succeeds, and every stored cell holds the arithmetic mean of
all matching filtered records (the pandas `pivot_table` default aggregation)
rather than one selected record. -/
theorem duplicate_observations_averaged (recs : List RawRecord) (district : String)
    (startD endD : ℤ) (st : List (String × List (ℤ × Option ℚ)))
    (c : String) (ser : List (ℤ × Option ℚ)) (d : ℤ) (v : ℚ)
    (hok : getInfo recs district startD endD = .ok st)
    (hc : (c, ser) ∈ st) (hd : (d, some v) ∈ ser) :
    (filterRecs recs district startD endD).filter
        (fun r => r.concelho == c && r.data == d) ≠ [] ∧
    v = (((filterRecs recs district startD endD).filter
          (fun r => r.concelho == c && r.data == d)).map
            (fun r => (r.confirmados_1 : ℚ))).sum /
        (((filterRecs recs district startD endD).filter
          (fun r => r.concelho == c && r.data == d)).length : ℚ) := by
  simp only [getInfo] at hok
  by_cases he : recs.isEmpty = true
  · rw [if_pos he] at hok
    exact absurd hok (by simp)
  · rw [if_neg he] at hok
    injection hok with h
    subst h
    obtain ⟨c', hc', hceq⟩ := List.mem_map.mp hc
    simp only [Prod.mk.injEq] at hceq
    obtain ⟨hc1, hser⟩ := hceq
    subst hc1
    subst hser
    obtain ⟨d', hd', hdeq⟩ := List.mem_map.mp hd
    simp only [Prod.mk.injEq] at hdeq
    obtain ⟨hd1, hv⟩ := hdeq
    subst hd1
    simp only [pivotCell] at hv
    by_cases hemp : ((filterRecs recs district startD endD).filter
        (fun r => r.concelho == c' && r.data == d')).isEmpty = true
    · rw [if_pos hemp] at hv
      exact absurd hv (by simp)
    · rw [if_neg hemp] at hv
      refine ⟨?_, ?_⟩
      · intro h0
        apply hemp
        rw [h0]
        rfl
      · injection hv with h
        exact h.symm

/-- Witness for `duplicate_observations_averaged` on a single-record store
(the mean of one value 6 is 6). -/
theorem duplicate_observations_averaged_witness :
    (filterRecs fafeRecs "Braga" 0 10).filter
        (fun r => r.concelho == "FAFE" && r.data == 4) ≠ [] ∧
    (6 : ℚ) = (((filterRecs fafeRecs "Braga" 0 10).filter
          (fun r => r.concelho == "FAFE" && r.data == 4)).map
            (fun r => (r.confirmados_1 : ℚ))).sum /
        (((filterRecs fafeRecs "Braga" 0 10).filter
          (fun r => r.concelho == "FAFE" && r.data == 4)).length : ℚ) :=
  duplicate_observations_averaged fafeRecs "Braga" 0 10 [("FAFE", [(4, some 6)])]
    "FAFE" [(4, some 6)] 4 6
    (by
      have hcell : pivotCell (filterRecs fafeRecs "Braga" 0 10) "FAFE" 4 = some 6 := by
        rw [(by decide : filterRecs fafeRecs "Braga" 0 10 = fafeRecs)]
        simp only [pivotCell, fafeRecs]
        norm_num [List.filter]
      rw [show getInfo fafeRecs "Braga" 0 10 =
          .ok [("FAFE", [(4, pivotCell (filterRecs fafeRecs "Braga" 0 10) "FAFE" 4)])]
          from rfl, hcell])
    (by simp) (by simp)
